import Mathlib

/-!
Verification of the usbx USB host library's core logic: the configuration
descriptor parser (`_common/confparser.py`), the shared device checks and
state transitions (`_common/devicebase.py`, `_linux/linuxdevice.py`), the
registry list management (`_common/registrybase.py`), and the entity model
(`configuration.py`, `enums.py`).

Python byte strings are modelled as `List Nat` (each element a byte value);
indexing `buffer[i]` out of range, which raises `IndexError` in Python, is
modelled via `List.get?`.  Exceptions are modelled with `Except`: the
distinguished error type `PErr` separates `USBError` (with its message) from
other Python runtime errors (`IndexError` / `struct.error`).  The unbounded
`while` loop of the parser is modelled with explicit fuel, `none` meaning the
loop has not finished within the given fuel.
-/

namespace Usbx

/-! ### Enums (`enums.py`) -/

inductive TransferType where
  | CONTROL
  | ISOCHRONOUS
  | BULK
  | INTERRUPT
deriving DecidableEq, Repr

/-- `TransferType.from_attributes`: `TransferType(attributes & 0x03)`. -/
def TransferType.fromAttributes (attributes : Nat) : TransferType :=
  match attributes &&& 0x03 with
  | 0 => .CONTROL
  | 1 => .ISOCHRONOUS
  | 2 => .BULK
  | _ => .INTERRUPT

/-- `transfer_type.name` used in error messages. -/
def TransferType.typeName : TransferType → String
  | .CONTROL => "CONTROL"
  | .ISOCHRONOUS => "ISOCHRONOUS"
  | .BULK => "BULK"
  | .INTERRUPT => "INTERRUPT"

inductive TransferDirection where
  | OUT
  | IN
deriving DecidableEq, Repr

/-- `direction.name` used in error messages. -/
def TransferDirection.dirName : TransferDirection → String
  | .OUT => "OUT"
  | .IN => "IN"

inductive RequestType where
  | STANDARD
  | CLASS
  | VENDOR
deriving DecidableEq, Repr

/-- The `IntEnum` value of a `RequestType`. -/
def RequestType.val : RequestType → Nat
  | .STANDARD => 0
  | .CLASS => 1
  | .VENDOR => 2

inductive Recipient where
  | DEVICE
  | INTERFACE
  | ENDPOINT
  | OTHER
deriving DecidableEq, Repr

/-- The `IntEnum` value of a `Recipient`. -/
def Recipient.val : Recipient → Nat
  | .DEVICE => 0
  | .INTERFACE => 1
  | .ENDPOINT => 2
  | .OTHER => 3

/-! ### Entity model (`configuration.py`) -/

structure Endpoint where
  number : Nat
  direction : TransferDirection
  transferType : TransferType
  maxPacketSize : Nat
deriving DecidableEq, Repr

/-- `Endpoint.get_number(address) = address & 0x7f`. -/
def Endpoint.get_number (address : Nat) : Nat := address &&& 0x7f

/-- `Endpoint.get_direction(address)`: `OUT` if `(address & 0x80) == 0` else `IN`. -/
def Endpoint.get_direction (address : Nat) : TransferDirection :=
  if address &&& 0x80 = 0 then .OUT else .IN

/-- `Endpoint.get_address(number, direction)`: `number` for `OUT`, `number | 0x80` for `IN`. -/
def Endpoint.get_address (number : Nat) (direction : TransferDirection) : Nat :=
  if direction = .OUT then number else number ||| 0x80

/-- `Endpoint.__init__(address, attributes, max_packet_size)`. -/
def Endpoint.make (address attributes maxPacketSize : Nat) : Endpoint :=
  { number := Endpoint.get_number address
    direction := Endpoint.get_direction address
    transferType := TransferType.fromAttributes attributes
    maxPacketSize := maxPacketSize }

structure AlternateInterface where
  number : Nat
  classCode : Nat
  subclassCode : Nat
  protocolCode : Nat
  endpoints : List Endpoint
deriving DecidableEq, Repr

structure Interface where
  number : Nat
  alternates : List AlternateInterface
  /-- Index into `alternates` of `_current_alternate`; the Python constructor
  sets `_current_alternate = alternates[0]` (and requires `alternates` to be
  non-empty). -/
  currentAltIdx : Nat
  isClaimed : Bool
deriving DecidableEq, Repr

/-- `Interface.__init__(number, alternates)`. -/
def Interface.make (number : Nat) (alternates : List AlternateInterface) : Interface :=
  { number := number, alternates := alternates, currentAltIdx := 0, isClaimed := false }

/-- `Interface.current_alternate`.  The Python reference is always valid for
interfaces built by the library (`currentAltIdx` is 0 on a non-empty list at
construction and only replaced by the index of an existing alternate); the
default is never reached on such states. -/
def Interface.current_alternate (i : Interface) : AlternateInterface :=
  (i.alternates.get? i.currentAltIdx).getD ⟨0, 0, 0, 0, []⟩

/-- `Interface.get_alternate(number)`: first alternate with that number. -/
def Interface.get_alternate (i : Interface) (number : Nat) : Option AlternateInterface :=
  i.alternates.find? (fun a => a.number == number)

structure CompositeFunction where
  firstIntfNumber : Nat
  interfaceCount : Nat
  classCode : Nat
  subclassCode : Nat
  protocolCode : Nat
deriving DecidableEq, Repr

/-- The span test `function.first_intf_number <= number < first_intf_number + interface_count`
used by `Configuration.get_function`. -/
def CompositeFunction.covers (f : CompositeFunction) (number : Nat) : Bool :=
  decide (f.firstIntfNumber ≤ number ∧ number < f.firstIntfNumber + f.interfaceCount)

structure Configuration where
  configurationValue : Nat
  attributes : Nat
  maxPower : Nat
  interfaces : List Interface
  functions : List CompositeFunction
deriving DecidableEq, Repr

/-- `Configuration.get_interface(number)`: first interface with that number. -/
def Configuration.get_interface (c : Configuration) (number : Nat) : Option Interface :=
  c.interfaces.find? (fun i => i.number == number)

/-- `Configuration.get_function(number)`: first function whose span contains `number`. -/
def Configuration.get_function (c : Configuration) (number : Nat) : Option CompositeFunction :=
  c.functions.find? (fun f => f.covers number)

/-! ### Configuration descriptor parser (`_common/confparser.py`)

`USBConfigurationParser.parse_bytes` first validates the 9-byte configuration
header (`parse_header`) and then walks the buffer descriptor by descriptor
(`parse`).  The walk is a `while` loop; it is embedded as a step function on a
parser state plus a fuel-indexed loop. -/

/-- Errors raised by the parser: `usb msg` is `USBError(msg)`; `runtime`
covers the other Python runtime errors the code can raise (`IndexError` from
out-of-range byte access, `struct.error` from `unpack_from` past the end). -/
inductive PErr where
  | usb (msg : String)
  | runtime
deriving DecidableEq, Repr

/-- Read `buffer[i]`, `IndexError` when out of range. -/
def byteAt (buffer : List Nat) (i : Nat) : Except PErr Nat :=
  match buffer.get? i with
  | some b => .ok b
  | none => .error .runtime

/-- `struct.Struct('<H').unpack_from(buffer, offset)`. -/
def uint16At (buffer : List Nat) (offset : Nat) : Except PErr Nat := do
  let lo ← byteAt buffer offset
  let hi ← byteAt buffer (offset + 1)
  pure (lo + 256 * hi)

/-- `USBConfigurationParser.parse_header`. -/
def parse_header (buffer : List Nat) : Except PErr Configuration :=
  if buffer.length < 9 then
    .error (.usb "Invalid USB configuration descriptor (too short)")
  else if buffer.getD 0 0 ≠ 9 then
    .error (.usb "Invalid USB configuration descriptor at pos 0")
  else if buffer.getD 1 0 ≠ 2 then
    .error (.usb "Invalid USB configuration descriptor at pos 1")
  else if buffer.getD 2 0 + 256 * buffer.getD 3 0 ≠ buffer.length then
    .error (.usb "Invalid USB configuration descriptor (invalid total length)")
  else
    .ok { configurationValue := buffer.getD 5 0
          attributes := buffer.getD 7 0
          maxPower := buffer.getD 8 0
          interfaces := []
          functions := [] }

/-- `USBConfigurationParser.parse_interface(offset)`. -/
def parseInterface (buffer : List Nat) (offset : Nat) : Except PErr Interface := do
  let altNumber ← byteAt buffer (offset + 3)
  let classCode ← byteAt buffer (offset + 5)
  let subclassCode ← byteAt buffer (offset + 6)
  let protocolCode ← byteAt buffer (offset + 7)
  let number ← byteAt buffer (offset + 2)
  pure (Interface.make number [⟨altNumber, classCode, subclassCode, protocolCode, []⟩])

/-- `USBConfigurationParser.parse_endpoint(offset)`. -/
def parseEndpoint (buffer : List Nat) (offset : Nat) : Except PErr Endpoint := do
  let address ← byteAt buffer (offset + 2)
  let attributes ← byteAt buffer (offset + 3)
  let maxPacketSize ← uint16At buffer (offset + 4)
  pure (Endpoint.make address attributes maxPacketSize)

/-- `USBConfigurationParser.parse_iad(offset)` (without the final append). -/
def parseIad (buffer : List Nat) (offset : Nat) : Except PErr CompositeFunction := do
  let firstIntf ← byteAt buffer (offset + 2)
  let count ← byteAt buffer (offset + 3)
  let classCode ← byteAt buffer (offset + 4)
  let subclassCode ← byteAt buffer (offset + 5)
  let protocolCode ← byteAt buffer (offset + 6)
  pure ⟨firstIntf, count, classCode, subclassCode, protocolCode⟩

/-- The function-synthesis half of `add_interface`: if no composite function
covers `number` yet, append a single-interface function built from the
alternate's class triple. -/
def Configuration.addFuncIfNeeded (c : Configuration) (number : Nat)
    (alt : AlternateInterface) : Configuration :=
  match c.get_function number with
  | some _ => c
  | none =>
      { c with functions :=
          c.functions ++ [⟨number, 1, alt.classCode, alt.subclassCode, alt.protocolCode⟩] }

/-- `USBConfigurationParser.add_interface(intf)`.  Returns the updated
configuration and the position `(interface index, alternate index)` of
`last_alternate` inside it (the Python code returns an object reference into
the configuration; positions model that aliasing). -/
def Configuration.add_interface (c : Configuration) (intf : Interface) :
    Configuration × (Nat × Nat) :=
  let alt := intf.current_alternate
  match c.interfaces.findIdx? (fun i => i.number == intf.number) with
  | some idx =>
      -- additional alternate setting for an existing interface
      match c.interfaces.get? idx with
      | some parent =>
          let parent1 := { parent with alternates := parent.alternates ++ [alt] }
          let c1 := { c with interfaces := c.interfaces.set idx parent1 }
          (c1.addFuncIfNeeded intf.number alt, (idx, parent.alternates.length))
      | none => (c, (0, 0))  -- unreachable: findIdx? returned a valid index
  | none =>
      -- new interface
      let c1 := { c with interfaces := c.interfaces ++ [intf] }
      ((c1.addFuncIfNeeded intf.number alt), (c.interfaces.length, intf.currentAltIdx))

/-- `last_alternate.endpoints.append(endpoint)`: append an endpoint to the
alternate at position `la` of the configuration (the parser's
`last_alternate` reference), no-op when there is no last alternate. -/
def Configuration.appendEndpointAt (c : Configuration) (la : Option (Nat × Nat))
    (ep : Endpoint) : Configuration :=
  match la with
  | none => c
  | some (i, j) =>
      match c.interfaces.get? i with
      | none => c  -- unreachable: the reference points into the configuration
      | some intf =>
          match intf.alternates.get? j with
          | none => c
          | some alt =>
              let alt1 := { alt with endpoints := alt.endpoints ++ [ep] }
              let intf1 := { intf with alternates := intf.alternates.set j alt1 }
              { c with interfaces := c.interfaces.set i intf1 }

/-- State of the `parse` loop: current offset, configuration under
construction, and the `last_alternate` reference. -/
structure PState where
  offset : Nat
  config : Configuration
  lastAlt : Option (Nat × Nat)
deriving DecidableEq, Repr

/-- Control part of one `while` iteration, depending only on the buffer and
the offset: loop exit, error, or the parsed descriptor plus its declared
length.  The checks and reads happen in the source's order: the declared
length `buffer[offset]` (in range because the loop guard holds), the type
`buffer[offset+1]` (Python raises `IndexError` here when `offset+1` is past
the end), then the bounds check, then the per-type parse. -/
inductive CtlRes where
  | done
  | err (e : PErr)
  | intf (i : Interface)
  | endp (e : Endpoint)
  | iad (f : CompositeFunction)
  | skip
deriving DecidableEq, Repr

def stepCtl (buffer : List Nat) (offset : Nat) : CtlRes :=
  if offset < buffer.length then
    let descLength := buffer.getD offset 0
    match buffer.get? (offset + 1) with
    | none => .err .runtime
    | some descType =>
        if buffer.length < offset + descLength then
          .err (.usb ("Invalid USB configuration descriptor at pos " ++ toString offset))
        else if descType = 4 then
          match parseInterface buffer offset with
          | .ok i => .intf i
          | .error e => .err e
        else if descType = 5 then
          match parseEndpoint buffer offset with
          | .ok e => .endp e
          | .error e => .err e
        else if descType = 11 then
          match parseIad buffer offset with
          | .ok f => .iad f
          | .error e => .err e
        else
          .skip
  else
    .done

/-- Result of one iteration of the `parse` loop. -/
inductive StepRes where
  | done (c : Configuration)
  | err (e : PErr)
  | next (s : PState)
deriving DecidableEq, Repr

/-- One iteration of the `parse` loop; `offset += desc_length` with
`desc_length = buffer[offset]` (in range because the loop guard holds). -/
def step (buffer : List Nat) (s : PState) : StepRes :=
  match stepCtl buffer s.offset with
  | .done => .done s.config
  | .err e => .err e
  | .intf i =>
      let r := s.config.add_interface i
      .next ⟨s.offset + buffer.getD s.offset 0, r.1, some r.2⟩
  | .endp e =>
      .next ⟨s.offset + buffer.getD s.offset 0, s.config.appendEndpointAt s.lastAlt e, s.lastAlt⟩
  | .iad f =>
      .next ⟨s.offset + buffer.getD s.offset 0,
        { s.config with functions := s.config.functions ++ [f] }, s.lastAlt⟩
  | .skip => .next ⟨s.offset + buffer.getD s.offset 0, s.config, s.lastAlt⟩

/-- The `while` loop of `USBConfigurationParser.parse`, with fuel.
`none` means the loop has not terminated within `fuel` iterations. -/
def parseLoop (buffer : List Nat) : Nat → PState → Option (Except PErr Configuration)
  | 0, _ => none
  | fuel + 1, s =>
      match step buffer s with
      | .done c => some (.ok c)
      | .err e => some (.error e)
      | .next s' => parseLoop buffer fuel s'

/-- `USBConfigurationParser.parse_bytes(desc)`: header validation, then the
descriptor walk starting at `offset = peek_desc_length(0) = buffer[0]`.
`none` means the walk did not terminate within `fuel` iterations. -/
def parse_bytes (buffer : List Nat) (fuel : Nat) : Option (Except PErr Configuration) :=
  match parse_header buffer with
  | .error e => some (.error e)
  | .ok config =>
      match buffer.get? 0 with
      | none => some (.error .runtime)  -- unreachable: the header has 9 bytes
      | some off0 => parseLoop buffer fuel ⟨off0, config, none⟩

/-! ### Device state and operations (`device.py`, `_common/devicebase.py`,
`_linux/linuxdevice.py`)

The mutable state of a `LinuxDevice` is embedded as `DeviceState`; each
operation is a function `DeviceState → Except String …`, where `.error msg`
models `raise USBError(msg)`.  Kernel calls (`os.open`, `ioctl`, URB
submission) are modelled as succeeding; every error path proved about below
is raised by the library's own validation *before* any kernel call, so this
abstraction does not affect those paths.  A successful data-transfer call is
modelled by the `Submission` record it hands to the async dispatcher. -/

structure ControlTransfer where
  requestType : RequestType
  recipient : Recipient
  request : Nat
  value : Nat
  index : Nat
deriving DecidableEq, Repr

structure DeviceState where
  identifier : String
  vid : Nat
  pid : Nat
  isConnected : Bool
  isOpen : Bool
  deviceFd : Int
  detachDrivers : Bool
  configuration : Configuration
deriving DecidableEq, Repr

/-- `DeviceBase.get_interface`: first interface with the given number. -/
def DeviceState.get_interface (d : DeviceState) (number : Nat) : Option Interface :=
  d.configuration.interfaces.find? (fun i => i.number == number)

/-- Inner scan of `DeviceBase.get_endpoint_and_interface`: first interface
whose *current alternate* holds an endpoint with this number and direction. -/
def findEndpointIntf : List Interface → Nat → TransferDirection → Option (Endpoint × Interface)
  | [], _, _ => none
  | i :: rest, number, direction =>
      match i.current_alternate.endpoints.find?
          (fun e => e.number == number && e.direction == direction) with
      | some e => some (e, i)
      | none => findEndpointIntf rest number direction

/-- `DeviceBase.get_endpoint_and_interface`. -/
def DeviceState.get_endpoint_and_interface (d : DeviceState) (number : Nat)
    (direction : TransferDirection) : Option (Endpoint × Interface) :=
  findEndpointIntf d.configuration.interfaces number direction

/-- `DeviceBase.check_is_open`. -/
def DeviceState.check_is_open (d : DeviceState) : Except String Unit :=
  if !d.isOpen then .error "Device must be opened first" else .ok ()

/-- `DeviceBase.check_is_closed_and_connected`. -/
def DeviceState.check_is_closed_and_connected (d : DeviceState) : Except String Unit :=
  if d.isOpen then .error "Device cannot be open for this operation"
  else if !d.isConnected then .error "Device is no longer connected"
  else .ok ()

/-- `DeviceBase.get_and_check_interface`. -/
def DeviceState.get_and_check_interface (d : DeviceState) (number : Nat)
    (expectClaimed : Bool) : Except String Interface :=
  match d.get_interface number with
  | none => .error ("Interface " ++ toString number ++ " does not exist")
  | some intf =>
      if expectClaimed && !intf.isClaimed then
        .error ("Interface " ++ toString number ++ " must be claimed first")
      else if !expectClaimed && intf.isClaimed then
        .error ("Interface " ++ toString number ++ " has already been claimed")
      else
        .ok intf

/-- `DeviceBase.get_and_check_endpoint_and_interface`. -/
def DeviceState.get_and_check_endpoint_and_interface (d : DeviceState) (number : Nat)
    (direction : TransferDirection) : Except String (Endpoint × Interface) :=
  if number == 0 then
    .error "Control endpoint 0 supports control transfers only"
  else
    match d.get_endpoint_and_interface number direction with
    | none =>
        .error ("Device has no " ++ direction.dirName ++ " endpoint " ++ toString number)
    | some (endpoint, interface) =>
        if !(endpoint.transferType == .BULK || endpoint.transferType == .INTERRUPT) then
          .error ("Transfer requires BULK or INTERRUPT endpoint (" ++ direction.dirName ++
            " endpoint " ++ toString number ++ " has type " ++
            endpoint.transferType.typeName ++ ")")
        else if !interface.isClaimed then
          .error ("Interface " ++ toString interface.number ++ " must be claimed for transfer")
        else
          .ok (endpoint, interface)

/-- `DeviceBase.check_control_transfer`. -/
def DeviceState.check_control_transfer (d : DeviceState) (transfer : ControlTransfer)
    (_direction : TransferDirection) : Except String Unit := do
  d.check_is_open
  match transfer.recipient with
  | .INTERFACE =>
      let _ ← d.get_and_check_interface (transfer.index &&& 0xff) true
      pure ()
  | .ENDPOINT =>
      let address := transfer.index &&& 0xff
      match d.get_endpoint_and_interface (Endpoint.get_number address)
          (Endpoint.get_direction address) with
      | none =>
          .error ("Endpoint (lower byte of index) does not exist")
      | some (_, interface) =>
          let _ ← d.get_and_check_interface interface.number true
          pure ()
  | _ => pure ()

/-- `DeviceBase.set_claimed` on the interface list: mutate the *first*
interface with the given number (as `get_interface` finds it). -/
def setClaimedList : List Interface → Nat → Bool → List Interface
  | [], _, _ => []
  | i :: rest, number, claimed =>
      if i.number == number then { i with isClaimed := claimed } :: rest
      else i :: setClaimedList rest number claimed

/-- `DeviceBase.set_claimed`. -/
def DeviceState.set_claimed (d : DeviceState) (number : Nat) (claimed : Bool) : DeviceState :=
  { d with configuration :=
      { d.configuration with interfaces := setClaimedList d.configuration.interfaces number claimed } }

/-- `DeviceBase.set_current_alternate`: point the first interface with this
number at its first alternate with the given alternate number. -/
def setCurrentAlternateList : List Interface → Nat → Nat → List Interface
  | [], _, _ => []
  | i :: rest, number, altNumber =>
      if i.number == number then
        { i with currentAltIdx :=
            (i.alternates.findIdx? (fun a => a.number == altNumber)).getD i.currentAltIdx } :: rest
      else i :: setCurrentAlternateList rest number altNumber

/-- `DeviceBase.set_current_alternate`. -/
def DeviceState.set_current_alternate (d : DeviceState) (number altNumber : Nat) : DeviceState :=
  { d with configuration :=
      { d.configuration with
        interfaces := setCurrentAlternateList d.configuration.interfaces number altNumber } }

/-- `LinuxDevice.open`: requires closed-and-connected, then opens a file
descriptor (modelled by the `fd` argument) and sets `is_open`. -/
def DeviceState.openDevice (d : DeviceState) (fd : Int) : Except String DeviceState := do
  d.check_is_closed_and_connected
  pure { d with deviceFd := fd, isOpen := true }

/-- The interface list after `close`'s release loop: every interface number
of the list is passed to `set_claimed(number, False)` in order. -/
def releaseIntfList (l : List Interface) : List Interface :=
  (l.map Interface.number).foldl (fun li n => setClaimedList li n false) l

/-- `LinuxDevice.close`: no-op when not open; otherwise closes the fd and
releases every interface by iterating `set_claimed(intf.number, False)` over
the interface list. -/
def DeviceState.close (d : DeviceState) : DeviceState :=
  if !d.isOpen then d
  else
    let d1 := { d with isOpen := false, deviceFd := 0 }
    (d1.configuration.interfaces.map Interface.number).foldl
      (fun acc n => acc.set_claimed n false) d1

/-- `LinuxDevice.claim_interface` (the claim `ioctl` is modelled as
succeeding). -/
def DeviceState.claim_interface (d : DeviceState) (number : Nat) : Except String DeviceState := do
  d.check_is_open
  let _ ← d.get_and_check_interface number false
  pure (d.set_claimed number true)

/-- `LinuxDevice.release_interface` (the release `ioctl` is modelled as
succeeding). -/
def DeviceState.release_interface (d : DeviceState) (number : Nat) : Except String DeviceState := do
  d.check_is_open
  let _ ← d.get_and_check_interface number true
  pure (d.set_claimed number false)

/-- `DeviceBase.check_alternate_interface`. -/
def DeviceState.check_alternate_interface (d : DeviceState) (number altNumber : Nat) :
    Except String Unit := do
  d.check_is_open
  let intf ← d.get_and_check_interface number true
  match intf.get_alternate altNumber with
  | none =>
      .error ("Interface " ++ toString number ++ " has no alternate setting " ++
        toString altNumber)
  | some _ => pure ()

/-- `LinuxDevice.select_alternate` (the `SETINTERFACE` `ioctl` is modelled as
succeeding). -/
def DeviceState.select_alternate (d : DeviceState) (number altNumber : Nat) :
    Except String DeviceState := do
  d.check_alternate_interface number altNumber
  pure (d.set_current_alternate number altNumber)

/-- The raw control-transfer setup `create_ctrl_transfer` builds:
`(bmRequestType, bRequest, wValue, wIndex)`. -/
def create_ctrl_transfer (t : ControlTransfer) (direction : TransferDirection) :
    Nat × Nat × Nat × Nat :=
  (((if direction = .IN then 0x80 else 0x00) |||
      (t.requestType.val <<< 5) ||| t.recipient.val), t.request, t.value, t.index)

/-- `LinuxDevice.control_transfer_in`: validation, then the synchronous
control `ioctl` (modelled by returning the submitted setup and length). -/
def DeviceState.control_transfer_in (d : DeviceState) (t : ControlTransfer) (length : Nat) :
    Except String ((Nat × Nat × Nat × Nat) × Nat) := do
  d.check_control_transfer t .IN
  pure (create_ctrl_transfer t .IN, length)

/-- `LinuxDevice.control_transfer_out`. -/
def DeviceState.control_transfer_out (d : DeviceState) (t : ControlTransfer)
    (data : List Nat) : Except String ((Nat × Nat × Nat × Nat) × Nat) := do
  d.check_control_transfer t .OUT
  pure (create_ctrl_transfer t .OUT, data.length)

/-- What `transfer_in`/`transfer_out` hand to the async dispatcher on
success: endpoint address, URB type, and buffer size. -/
structure Submission where
  address : Nat
  urbType : TransferType
  size : Nat
deriving DecidableEq, Repr

/-- `LinuxDevice.transfer_in`: validation, then submission of a BULK URB of
`max_packet_size` bytes on the IN address. -/
def DeviceState.transfer_in (d : DeviceState) (endpointNumber : Nat) :
    Except String Submission := do
  let (endpoint, _) ← d.get_and_check_endpoint_and_interface endpointNumber .IN
  pure ⟨Endpoint.get_address endpointNumber .IN, .BULK, endpoint.maxPacketSize⟩

/-- `LinuxDevice.transfer_out`: validation, then submission of a BULK URB of
the payload's length on the OUT address. -/
def DeviceState.transfer_out (d : DeviceState) (endpointNumber : Nat) (data : List Nat) :
    Except String Submission := do
  let _ ← d.get_and_check_endpoint_and_interface endpointNumber .OUT
  pure ⟨Endpoint.get_address endpointNumber .OUT, .BULK, data.length⟩

/-- `LinuxDevice.clear_halt` (the `CLEAR_HALT` `ioctl` is modelled by
returning the endpoint address it targets). -/
def DeviceState.clear_halt (d : DeviceState) (number : Nat)
    (direction : TransferDirection) : Except String Nat := do
  let _ ← d.get_and_check_endpoint_and_interface number direction
  pure (Endpoint.get_address number direction)

/-- `LinuxDevice.abort_transfers`. -/
def DeviceState.abort_transfers (d : DeviceState) (number : Nat)
    (direction : TransferDirection) : Except String Nat := do
  let _ ← d.get_and_check_endpoint_and_interface number direction
  pure (Endpoint.get_address number direction)

/-- What `DeviceRegistryBase.close_and_remove_device` does to the device
itself after physical disconnect: `device.close()` then
`device.is_connected = False`. -/
def DeviceState.disconnect (d : DeviceState) : DeviceState :=
  { d.close with isConnected := false }

/-- The failure conditions of claim C7 for a data transfer on endpoint
`ep`/`dir`: endpoint 0, no such endpoint in any current alternate setting, a
transfer type that is neither BULK nor INTERRUPT, or an unclaimed
interface. -/
def BadTransferEndpoint (d : DeviceState) (ep : Nat) (dir : TransferDirection) : Prop :=
  ep = 0 ∨ d.get_endpoint_and_interface ep dir = none ∨
    (∃ e i, d.get_endpoint_and_interface ep dir = some (e, i) ∧
      e.transferType ≠ .BULK ∧ e.transferType ≠ .INTERRUPT) ∨
    (∃ e i, d.get_endpoint_and_interface ep dir = some (e, i) ∧ i.isClaimed = false)

/-- A concrete open device used in witnesses: one unclaimed interface 0 with
one bulk IN endpoint 2 and one bulk OUT endpoint 2. -/
def demoDevice : DeviceState :=
  { identifier := "/dev/bus/usb/001/002"
    vid := 0xcafe
    pid := 0x0042
    isConnected := true
    isOpen := true
    deviceFd := 7
    detachDrivers := false
    configuration :=
      { configurationValue := 1, attributes := 0x80, maxPower := 50,
        interfaces := [⟨0, [⟨0, 10, 0, 0, [⟨2, .IN, .BULK, 64⟩, ⟨2, .OUT, .BULK, 64⟩]⟩], 0, false⟩],
        functions := [⟨0, 1, 10, 0, 0⟩] } }

/-! ### Transfer wait (`LinuxDevice.wait_for_transfer`)

The embedding is sequential: `timeoutGiven` says whether `timeout` is not
`None`; `completedInTime` is the value returned by
`transfer.event.wait(timeout)` (the unbounded `event.wait()` always
completes); `codeAtCheck` is the `transfer.result_code` read inside the
timeout branch — it is 0 whenever the transfer has not completed, because
`reap_urb` writes `result_code` before setting the event; `finalCode` is the
`result_code` at the final status translation.  `os.strerror` is an
environment function passed as a parameter.  The returned flag records
whether `abort_transfers` was invoked (the abort-then-unbounded-wait path of
the timeout branch). -/

/-- `errno.EPIPE` on Linux. -/
def EPIPE : Nat := 32

inductive WaitOutcome where
  /-- normal return: the caller slices and returns the payload -/
  | success
  /-- `raise TransferTimeoutError('transfer timed out')` -/
  | timedOut
  /-- `raise StallError('transfer stalled')` -/
  | stalled
  /-- `raise USBError(f'transfer failed - {msg}')` -/
  | failed (msg : String)
deriving DecidableEq, Repr

/-- `LinuxDevice.wait_for_transfer`. -/
def wait_for_transfer (strerrorF : Nat → String) (timeoutGiven completedInTime : Bool)
    (codeAtCheck finalCode : Nat) : WaitOutcome × Bool :=
  if timeoutGiven && !completedInTime && codeAtCheck == 0 then
    -- abort_transfers(device_fd, address); event.wait(); raise TransferTimeoutError
    (.timedOut, true)
  else
    if finalCode ≠ 0 then
      if finalCode = EPIPE then (.stalled, false)
      else (.failed ("transfer failed - " ++ strerrorF finalCode), false)
    else (.success, false)

/-! ### Registry list management (`_common/registrybase.py`)

`device_list` aliasing matters for claim C9, so Python list objects are
modelled as heap cells: `cells` maps a cell id to the list's contents
(device identifiers), `current` is the cell `self.device_list` points to,
and `nextId` is the next fresh id.  `get_devices` hands the caller the
current cell id — the Python reference to the very list object.
`add_device` allocates a fresh cell (`self.device_list = sorted_devices(self.device_list + [device])`
rebinds the attribute to a new list), while `close_and_remove_device`
mutates the current cell in place (`self.device_list.remove(device)`). -/

def lookupCell : List (Nat × List String) → Nat → Option (List String)
  | [], _ => none
  | (k, v) :: rest, h => if k == h then some v else lookupCell rest h

def updateCell : List (Nat × List String) → Nat → List String → List (Nat × List String)
  | [], _, _ => []
  | (k, v) :: rest, h, nv => if k == h then (k, nv) :: rest else (k, v) :: updateCell rest h nv

structure Registry where
  cells : List (Nat × List String)
  current : Nat
  nextId : Nat
deriving DecidableEq, Repr

/-- The contents of the list object behind cell id `h`. -/
def Registry.readList (r : Registry) (h : Nat) : List String :=
  (lookupCell r.cells h).getD []

/-- `sorted_devices`: sort by identifier (ascending, stable). -/
def sorted_devices (devices : List String) : List String :=
  devices.insertionSort (fun a b => a ≤ b)

/-- `DeviceRegistryBase.get_devices` (after initial enumeration): returns
`self.device_list` — the reference to the current list object. -/
def Registry.get_devices (r : Registry) : Nat := r.current

/-- `DeviceRegistryBase.add_device`: `self.device_list =
sorted_devices(self.device_list + [device])` builds a new list object and
rebinds the attribute to it. -/
def Registry.add_device (r : Registry) (device : String) : Registry :=
  { cells := r.cells ++ [(r.nextId, sorted_devices (r.readList r.current ++ [device]))]
    current := r.nextId
    nextId := r.nextId + 1 }

/-- `list.remove(device)` after `find_device_by_id`: drop the first element
with the given identifier. -/
def removeFirst : List String → String → List String
  | [], _ => []
  | x :: rest, ident => if x == ident then rest else x :: removeFirst rest ident

/-- `DeviceRegistryBase.close_and_remove_device`: find the device by
identifier (return silently when absent), then remove it from the current
list object **in place**. -/
def Registry.close_and_remove_device (r : Registry) (ident : String) : Registry :=
  if (r.readList r.current).contains ident then
    { r with cells := updateCell r.cells r.current (removeFirst (r.readList r.current) ident) }
  else r

/-- A concrete registry: one list object (id 0) holding devices "a", "b". -/
def regSample : Registry := ⟨[(0, ["a", "b"])], 0, 1⟩

/-- A concrete stand-in for the environment's `os.strerror`. -/
def demoStrerror (code : Nat) : String := "error " ++ toString code

/-- One loop iteration going from state `a` to state `b`. -/
def StepNext (buffer : List Nat) (a b : PState) : Prop := step buffer a = .next b

/-- The `parse` loop, started in state `a`, eventually reaches state `b`. -/
def Reaches (buffer : List Nat) : PState → PState → Prop :=
  Relation.ReflTransGen (StepNext buffer)

/-- The initial state of the `parse` loop (after successful header
validation): `offset = buffer[0]`, the header's configuration, no
`last_alternate`. -/
def parseStart (buffer : List Nat) : Option PState :=
  match parse_header buffer, buffer.get? 0 with
  | .ok c0, some off0 => some ⟨off0, c0, none⟩
  | _, _ => none

/-! ### Concrete descriptor buffers used as witnesses and counterexamples -/

/-- A valid configuration descriptor: 9-byte header (`wTotalLength = 18`,
value 1, attributes 0x34, max power 0x64) followed by one 9-byte INTERFACE
descriptor (number 0, alternate 0, class ff/dd/cc). -/
def sampleConfigDesc : List Nat :=
  [9, 2, 18, 0, 1, 1, 0, 0x34, 0x64,
   9, 4, 0, 0, 0, 0xff, 0xdd, 0xcc, 0]

/-- The configuration parsed from `sampleConfigDesc`. -/
def sampleConfig : Configuration :=
  { configurationValue := 1, attributes := 0x34, maxPower := 0x64,
    interfaces := [⟨0, [⟨0, 0xff, 0xdd, 0xcc, []⟩], 0, false⟩],
    functions := [⟨0, 1, 0xff, 0xdd, 0xcc⟩] }

/-- A descriptor with two identical Interface Association Descriptors (span
`[0, 1)`) followed by one INTERFACE descriptor with number 0: interface 0
then lies in the span of two composite functions. -/
def overlappingIadDesc : List Nat :=
  [9, 2, 34, 0, 1, 1, 0, 0x34, 0x64,
   8, 11, 0, 1, 10, 20, 30, 0,
   8, 11, 0, 1, 10, 20, 30, 0,
   9, 4, 0, 0, 0, 0xff, 0xdd, 0xcc, 0]

/-- The configuration parsed from `overlappingIadDesc`. -/
def overlappingIadConfig : Configuration :=
  { configurationValue := 1, attributes := 0x34, maxPower := 0x64,
    interfaces := [⟨0, [⟨0, 0xff, 0xdd, 0xcc, []⟩], 0, false⟩],
    functions := [⟨0, 1, 10, 20, 30⟩, ⟨0, 1, 10, 20, 30⟩] }

/-- A 10-byte buffer (header valid, `wTotalLength = 10`) whose single
sub-descriptor starts at the final byte (offset 9) with declared length 5:
that descriptor overruns the buffer, but `peek_desc_type` reads
`buffer[10]` before the bounds check and raises `IndexError`. -/
def overrunTailDesc : List Nat := [9, 2, 10, 0, 0, 0, 0, 0, 0, 5]

/-- A 10-byte buffer whose single sub-descriptor starts at the final byte
(offset 9) with declared length 0: `peek_desc_type` raises `IndexError`. -/
def zeroLenTailDesc : List Nat := [9, 2, 10, 0, 0, 0, 0, 0, 0, 0]

/-- An 11-byte buffer with a zero-length, unrecognized-type sub-descriptor
at offset 9: every loop iteration succeeds without advancing the offset, so
`parse` never terminates. -/
def zeroLenLoopDesc : List Nat := [9, 2, 11, 0, 0, 0, 0, 0, 0, 0, 0]

/-- The structural invariant of parsed configurations (claim C1, with
"exactly one" weakened to "at least one" span): interface numbers are unique,
every interface number lies in the span of at least one composite function,
and `functions` is non-empty whenever `interfaces` is. -/
def ConfigInv (c : Configuration) : Prop :=
  (c.interfaces.map Interface.number).Nodup ∧
    (∀ i ∈ c.interfaces, ∃ f ∈ c.functions, f.covers i.number = true) ∧
    (c.interfaces ≠ [] → c.functions ≠ [])

/-! ## Theorems -/

/-- Setting index `idx` (which holds `p`) to an interface with the same
number leaves the interface-number list unchanged. -/
theorem map_number_set_same :
    ∀ (l : List Interface) (idx : Nat) (p p1 : Interface),
      l.get? idx = some p → p1.number = p.number →
      (l.set idx p1).map Interface.number = l.map Interface.number := by
  intro l
  induction l with
  | nil => intro idx p p1 h _; simp at h
  | cons x xs ih =>
      intro idx p p1 h hn
      cases idx with
      | zero =>
          simp only [List.get?] at h
          cases h
          simp [hn]
      | succ k =>
          simp only [List.get?] at h
          simp [ih k p p1 h hn]

/-- `addFuncIfNeeded` leaves the interface list unchanged. -/
theorem addFuncIfNeeded_interfaces (c : Configuration) (n : Nat) (alt : AlternateInterface) :
    (c.addFuncIfNeeded n alt).interfaces = c.interfaces := by
  unfold Configuration.addFuncIfNeeded
  cases c.get_function n <;> rfl

/-- Coverage is monotone under `addFuncIfNeeded`. -/
theorem addFuncIfNeeded_covers_mono (c : Configuration) (n : Nat) (alt : AlternateInterface)
    (m : Nat) (h : ∃ f ∈ c.functions, f.covers m = true) :
    ∃ f ∈ (c.addFuncIfNeeded n alt).functions, f.covers m = true := by
  unfold Configuration.addFuncIfNeeded
  obtain ⟨f, hf, hc⟩ := h
  cases c.get_function n with
  | some _ => exact ⟨f, hf, hc⟩
  | none => exact ⟨f, List.mem_append_left _ hf, hc⟩

/-- After `addFuncIfNeeded c n alt`, some function covers `n`. -/
theorem addFuncIfNeeded_covers_self (c : Configuration) (n : Nat) (alt : AlternateInterface) :
    ∃ f ∈ (c.addFuncIfNeeded n alt).functions, f.covers n = true := by
  unfold Configuration.addFuncIfNeeded
  cases hg : c.get_function n with
  | some f =>
      refine ⟨f, List.mem_of_find?_eq_some hg, ?_⟩
      have := List.find?_some hg
      simpa using this
  | none =>
      refine ⟨⟨n, 1, alt.classCode, alt.subclassCode, alt.protocolCode⟩,
        List.mem_append_right _ (List.mem_singleton.mpr rfl), ?_⟩
      simp [CompositeFunction.covers]

/-- After `addFuncIfNeeded`, the function list is non-empty. -/
theorem addFuncIfNeeded_functions_ne_nil (c : Configuration) (n : Nat)
    (alt : AlternateInterface) : (c.addFuncIfNeeded n alt).functions ≠ [] := by
  unfold Configuration.addFuncIfNeeded
  cases hg : c.get_function n with
  | some f =>
      intro hnil
      have hmem := List.mem_of_find?_eq_some hg
      rw [hnil] at hmem
      simp at hmem
  | none => simp

/-- The invariant only depends on the interface-number list and the
functions, so it transfers along equal projections. -/
theorem configInv_of_projections (c c' : Configuration)
    (hmap : c'.interfaces.map Interface.number = c.interfaces.map Interface.number)
    (hfun : c'.functions = c.functions) (h : ConfigInv c) : ConfigInv c' := by
  obtain ⟨hnd, hcov, hne⟩ := h
  refine ⟨hmap ▸ hnd, ?_, ?_⟩
  · intro i hi
    have hnum : i.number ∈ c.interfaces.map Interface.number := by
      rw [← hmap]
      exact List.mem_map_of_mem _ hi
    obtain ⟨i0, hi0, hieq⟩ := List.mem_map.mp hnum
    obtain ⟨f, hf, hfc⟩ := hcov i0 hi0
    exact ⟨f, hfun ▸ hf, hieq ▸ hfc⟩
  · intro hnonempty
    rw [hfun]
    apply hne
    intro hnil
    rw [hnil] at hmap
    simp only [List.map_nil, List.map_eq_nil_iff] at hmap
    exact hnonempty hmap

/-- The result of `addFuncIfNeeded` applied to an invariant-preserving base
configuration keeps the invariant, and additionally covers the added number. -/
theorem addFuncIfNeeded_inv_of (c : Configuration) (n : Nat) (alt : AlternateInterface)
    (hnd : (c.interfaces.map Interface.number).Nodup)
    (hcov : ∀ i ∈ c.interfaces, i.number = n ∨ ∃ f ∈ c.functions, f.covers i.number = true) :
    ConfigInv (c.addFuncIfNeeded n alt) := by
  refine ⟨?_, ?_, ?_⟩
  · rw [addFuncIfNeeded_interfaces]; exact hnd
  · intro i hi
    rw [addFuncIfNeeded_interfaces] at hi
    rcases hcov i hi with heq | hex
    · rw [heq]; exact addFuncIfNeeded_covers_self c n alt
    · exact addFuncIfNeeded_covers_mono c n alt _ hex
  · intro _
    exact addFuncIfNeeded_functions_ne_nil c n alt

/-- `add_interface` preserves the configuration invariant. -/
theorem add_interface_inv (c : Configuration) (intf : Interface) (h : ConfigInv c) :
    ConfigInv (c.add_interface intf).1 := by
  obtain ⟨hnd, hcov, hne⟩ := h
  cases hidx : c.interfaces.findIdx? (fun i => i.number == intf.number) with
  | some idx =>
      cases hget : c.interfaces.get? idx with
      | none =>
          simp only [Configuration.add_interface, hidx, hget]
          exact ⟨hnd, hcov, hne⟩
      | some parent =>
          simp only [Configuration.add_interface, hidx, hget]
          apply addFuncIfNeeded_inv_of
          · show ((c.interfaces.set idx _).map Interface.number).Nodup
            rw [map_number_set_same c.interfaces idx parent
              { parent with alternates := parent.alternates ++ [intf.current_alternate] } hget rfl]
            exact hnd
          · intro x hx
            rcases List.mem_or_eq_of_mem_set hx with hmem | rfl
            · exact Or.inr (hcov x hmem)
            · exact Or.inr (hcov parent (List.get?_mem hget))
  | none =>
      simp only [Configuration.add_interface, hidx]
      have hnotmem : intf.number ∉ c.interfaces.map Interface.number := by
        intro hmem
        obtain ⟨i, hi, hieq⟩ := List.mem_map.mp hmem
        have := List.findIdx?_eq_none_iff.mp hidx i hi
        simp [hieq] at this
      apply addFuncIfNeeded_inv_of
      · show ((c.interfaces ++ [intf]).map Interface.number).Nodup
        rw [List.map_append, List.nodup_append]
        refine ⟨hnd, List.nodup_singleton _, ?_⟩
        intro a ha hb
        simp only [List.map_cons, List.map_nil, List.mem_singleton] at hb
        subst hb
        exact hnotmem ha
      · intro i hi
        rcases List.mem_append.mp hi with hmem | hmem
        · exact Or.inr (hcov i hmem)
        · have : i = intf := List.mem_singleton.mp hmem
          subst this
          exact Or.inl rfl

/-- `appendEndpointAt` preserves the configuration invariant. -/
theorem appendEndpointAt_inv (c : Configuration) (la : Option (Nat × Nat)) (ep : Endpoint)
    (h : ConfigInv c) : ConfigInv (c.appendEndpointAt la ep) := by
  cases la with
  | none => exact h
  | some ij =>
      obtain ⟨i, j⟩ := ij
      cases hget : c.interfaces.get? i with
      | none =>
          simp only [Configuration.appendEndpointAt, hget]
          exact h
      | some intf =>
          cases hget2 : intf.alternates.get? j with
          | none =>
              simp only [Configuration.appendEndpointAt, hget, hget2]
              exact h
          | some alt =>
              simp only [Configuration.appendEndpointAt, hget, hget2]
              exact configInv_of_projections c _
                (map_number_set_same c.interfaces i intf _ hget rfl) rfl h

/-- Appending a composite function preserves the invariant. -/
theorem functions_append_inv (c : Configuration) (f : CompositeFunction)
    (h : ConfigInv c) : ConfigInv { c with functions := c.functions ++ [f] } := by
  obtain ⟨hnd, hcov, _⟩ := h
  refine ⟨hnd, ?_, ?_⟩
  · intro i hi
    obtain ⟨g, hg, hgc⟩ := hcov i hi
    exact ⟨g, List.mem_append_left _ hg, hgc⟩
  · intro _; simp

/-- Every iteration of the parse loop preserves the invariant. -/
theorem step_inv (buffer : List Nat) (s : PState) (s' : PState)
    (h : ConfigInv s.config) (hstep : step buffer s = .next s') : ConfigInv s'.config := by
  unfold step at hstep
  cases hctl : stepCtl buffer s.offset <;> rw [hctl] at hstep
  case done => exact absurd hstep (by simp)
  case err e => exact absurd hstep (by simp)
  case intf i =>
      injection hstep with h1
      subst h1
      exact add_interface_inv s.config i h
  case endp e =>
      injection hstep with h1
      subst h1
      exact appendEndpointAt_inv s.config s.lastAlt e h
  case iad f =>
      injection hstep with h1
      subst h1
      exact functions_append_inv s.config f h
  case skip =>
      injection hstep with h1
      subst h1
      exact h

/-- A `done` result returns the state's configuration unchanged. -/
theorem step_done (buffer : List Nat) (s : PState) (c : Configuration)
    (h : step buffer s = .done c) : c = s.config := by
  unfold step at h
  cases hctl : stepCtl buffer s.offset <;> rw [hctl] at h <;>
    first
    | (injection h with h1; exact h1.symm)
    | exact absurd h (by simp)

/-- The parse loop preserves the invariant up to its result. -/
theorem parseLoop_inv (buffer : List Nat) :
    ∀ (fuel : Nat) (s : PState) (cfg : Configuration), ConfigInv s.config →
      parseLoop buffer fuel s = some (.ok cfg) → ConfigInv cfg := by
  intro fuel
  induction fuel with
  | zero => intro s cfg _ h; simp [parseLoop] at h
  | succ n ih =>
      intro s cfg hinv h
      cases hstep : step buffer s
      all_goals simp only [parseLoop, hstep, Option.some.injEq, Except.ok.injEq] at h
      case done c =>
          rw [← h]
          rw [step_done buffer s c hstep]
          exact hinv
      case err e => exact absurd h (by simp)
      case next s2 => exact ih s2 cfg (step_inv buffer s s2 hinv hstep) h

set_option maxRecDepth 4096 in
/-- Claim C10 helper statement, checked over all byte values. -/
theorem endpoint_address_roundtrip_all :
    ∀ a < 256, Endpoint.get_address (Endpoint.get_number a) (Endpoint.get_direction a) = a := by
  decide

/-- **C10**: for every integer `a` in `[0, 255]`,
`Endpoint.get_address(Endpoint.get_number(a), Endpoint.get_direction(a)) = a`,
where `get_number(a) = a & 0x7f`, `get_direction(a)` is `IN` exactly when bit 7
of `a` is set, and `get_address(number, direction) = number | (0x80 if IN else 0)`. -/
theorem endpoint_address_identity (a : Nat) (h : a < 256) :
    Endpoint.get_address (Endpoint.get_number a) (Endpoint.get_direction a) = a ∧
      Endpoint.get_number a = a &&& 0x7f ∧
      (Endpoint.get_direction a = .IN ↔ a &&& 0x80 ≠ 0) ∧
      (∀ n d, Endpoint.get_address n d = if d = .IN then n ||| 0x80 else n) := by
  refine ⟨endpoint_address_roundtrip_all a h, rfl, ?_, ?_⟩
  · unfold Endpoint.get_direction
    split <;> simp_all
  · intro n d
    cases d <;> simp [Endpoint.get_address]

/-- Witness for C10 at the concrete address `0x85`. -/
theorem endpoint_address_identity_witness :
    Endpoint.get_address (Endpoint.get_number 0x85) (Endpoint.get_direction 0x85) = 0x85 ∧
      Endpoint.get_number 0x85 = 0x85 &&& 0x7f ∧
      (Endpoint.get_direction 0x85 = .IN ↔ 0x85 &&& 0x80 ≠ 0) ∧
      (∀ n d, Endpoint.get_address n d = if d = .IN then n ||| 0x80 else n) :=
  endpoint_address_identity 0x85 (by decide)

/-- The configuration produced by `parse_header` is empty. -/
theorem parse_header_shape (buffer : List Nat) (c0 : Configuration)
    (h : parse_header buffer = .ok c0) : c0.interfaces = [] ∧ c0.functions = [] := by
  unfold parse_header at h
  split_ifs at h
  all_goals injection h with h1
  rw [← h1]
  exact ⟨rfl, rfl⟩

/-- **C1** (amended): every configuration returned by `parse_bytes` has
pairwise-distinct interface numbers, every interface number lies within the
span of **at least one** composite function (so `get_function` finds one),
and `functions` is non-empty whenever `interfaces` is non-empty.  The
original "exactly one span" is refuted by
`parse_exactly_one_span_counterexample`: the parser appends every IAD it
encounters without checking for overlap. -/
theorem parse_bytes_invariants (buffer : List Nat) (fuel : Nat) (cfg : Configuration)
    (h : parse_bytes buffer fuel = some (.ok cfg)) :
    (cfg.interfaces.map Interface.number).Nodup ∧
      (∀ i ∈ cfg.interfaces, ∃ f ∈ cfg.functions, f.covers i.number = true) ∧
      (cfg.interfaces ≠ [] → cfg.functions ≠ []) := by
  unfold parse_bytes at h
  cases hph : parse_header buffer <;> rw [hph] at h
  case error e => simp at h
  case ok c0 =>
      cases h0 : buffer.get? 0 <;> rw [h0] at h
      case none => simp at h
      case some off0 =>
          have hshape := parse_header_shape buffer c0 hph
          have hinv0 : ConfigInv c0 := by
            refine ⟨?_, ?_, ?_⟩
            · rw [hshape.1]; exact List.nodup_nil
            · intro i hi
              rw [hshape.1] at hi
              simp at hi
            · intro hne
              exact absurd hshape.1 hne
          exact parseLoop_inv buffer fuel _ cfg hinv0 h

/-- Counterexample to C1 as stated: `overlappingIadDesc` parses successfully,
its only interface has number 0, and **two** composite functions' spans
contain 0 — not exactly one. -/
theorem parse_exactly_one_span_counterexample :
    parse_bytes overlappingIadDesc 8 = some (.ok overlappingIadConfig) ∧
      overlappingIadConfig.interfaces.map Interface.number = [0] ∧
      (overlappingIadConfig.functions.filter (fun f => f.covers 0)).length = 2 := by
  refine ⟨?_, by decide, by decide⟩
  rfl

/-- Witness for the amended C1 on the concretely parsed `sampleConfigDesc`. -/
theorem parse_bytes_invariants_witness :
    (sampleConfig.interfaces.map Interface.number).Nodup ∧
      (∀ i ∈ sampleConfig.interfaces, ∃ f ∈ sampleConfig.functions, f.covers i.number = true) ∧
      (sampleConfig.interfaces ≠ [] → sampleConfig.functions ≠ []) :=
  parse_bytes_invariants sampleConfigDesc 5 sampleConfig (by rfl)

/-- **C4**: `parse_bytes` fails with a malformed-descriptor `USBError` (and
constructs no `Configuration`) unless the buffer is at least 9 bytes long,
its first byte is 9, its second byte is 0x02, and the little-endian 16-bit
`wTotalLength` at offset 2 equals the buffer's length. -/
theorem parse_bytes_header_validation (buffer : List Nat) (fuel : Nat)
    (h : ¬(9 ≤ buffer.length ∧ buffer.getD 0 0 = 9 ∧ buffer.getD 1 0 = 2 ∧
        buffer.getD 2 0 + 256 * buffer.getD 3 0 = buffer.length)) :
    ∃ msg, parse_bytes buffer fuel = some (.error (.usb msg)) := by
  unfold parse_bytes parse_header
  split_ifs with h1 h2 h3 h4
  · exact ⟨_, rfl⟩
  · exact ⟨_, rfl⟩
  · exact ⟨_, rfl⟩
  · exact ⟨_, rfl⟩
  · exact absurd ⟨Nat.le_of_not_lt h1, not_ne_iff.mp h2, not_ne_iff.mp h3, not_ne_iff.mp h4⟩ h

/-- Witness for C4: the empty buffer violates the header conditions and is
rejected with a `USBError`. -/
theorem parse_bytes_header_validation_witness :
    ¬(9 ≤ ([] : List Nat).length ∧ ([] : List Nat).getD 0 0 = 9 ∧ ([] : List Nat).getD 1 0 = 2 ∧
        ([] : List Nat).getD 2 0 + 256 * ([] : List Nat).getD 3 0 = ([] : List Nat).length) ∧
      ∃ msg, parse_bytes [] 3 = some (.error (.usb msg)) :=
  ⟨by decide, parse_bytes_header_validation [] 3 (by decide)⟩

/-- `parse_bytes` runs the loop from the state given by `parseStart`. -/
theorem parse_bytes_eq_loop (buffer : List Nat) (fuel : Nat) (s0 : PState)
    (h : parseStart buffer = some s0) : parse_bytes buffer fuel = parseLoop buffer fuel s0 := by
  unfold parseStart at h
  cases hph : parse_header buffer <;> rw [hph] at h
  case error e => simp at h
  case ok c0 =>
      cases h0 : buffer.get? 0 <;> rw [h0] at h
      case none => simp at h
      case some off0 =>
          injection h with h1
          simp only [parse_bytes, hph, h0]
          rw [h1]

/-- If the loop reaches a state whose next iteration raises `e`, the whole
loop either runs out of fuel or surfaces exactly `e`. -/
theorem parseLoop_reaches_err (buffer : List Nat) (s0 s : PState) (e : PErr)
    (hreach : Reaches buffer s0 s) (herr : step buffer s = .err e) :
    ∀ fuel, parseLoop buffer fuel s0 = none ∨ parseLoop buffer fuel s0 = some (.error e) := by
  induction hreach using Relation.ReflTransGen.head_induction_on with
  | refl =>
      intro fuel
      cases fuel with
      | zero => exact Or.inl rfl
      | succ n =>
          right
          simp only [parseLoop, herr]
  | head hab hbs ih =>
      intro fuel
      cases fuel with
      | zero => exact Or.inl rfl
      | succ n =>
          have hab' : step buffer _ = .next _ := hab
          simp only [parseLoop, hab']
          exact ih n

/-- A `next` result advances the offset by the declared descriptor length
`buffer[offset]`. -/
theorem step_next_offset (buffer : List Nat) (s s' : PState)
    (h : step buffer s = .next s') : s'.offset = s.offset + buffer.getD s.offset 0 := by
  unfold step at h
  cases hctl : stepCtl buffer s.offset <;> rw [hctl] at h
  case done => exact absurd h (by simp)
  case err e => exact absurd h (by simp)
  all_goals (injection h with h1; rw [← h1])

/-- Whether an iteration completes without error depends only on the buffer
and the offset, not on the configuration being built. -/
theorem step_next_any (buffer : List Nat) (s s' : PState)
    (h : step buffer s = .next s') :
    ∀ c la, ∃ s2, step buffer ⟨s.offset, c, la⟩ = .next s2 := by
  intro c la
  unfold step at h
  cases hctl : stepCtl buffer s.offset <;> rw [hctl] at h
  case done => exact absurd h (by simp)
  case err e => exact absurd h (by simp)
  case intf i =>
      exact ⟨⟨s.offset + buffer.getD s.offset 0, (c.add_interface i).1,
        some (c.add_interface i).2⟩, by simp only [step, hctl]⟩
  case endp e =>
      exact ⟨⟨s.offset + buffer.getD s.offset 0, c.appendEndpointAt la e, la⟩,
        by simp only [step, hctl]⟩
  case iad f =>
      exact ⟨⟨s.offset + buffer.getD s.offset 0,
        { c with functions := c.functions ++ [f] }, la⟩, by simp only [step, hctl]⟩
  case skip =>
      exact ⟨⟨s.offset + buffer.getD s.offset 0, c, la⟩, by simp only [step, hctl]⟩

/-- At an offset with declared length 0 whose iteration raises no error, the
loop never terminates, for any fuel and any accumulated state. -/
theorem parseLoop_stuck (buffer : List Nat) (off : Nat) (hzero : buffer.getD off 0 = 0)
    (hnext : ∀ c la, ∃ s2, step buffer ⟨off, c, la⟩ = .next s2) :
    ∀ (fuel : Nat) (c : Configuration) (la : Option (Nat × Nat)),
      parseLoop buffer fuel ⟨off, c, la⟩ = none := by
  intro fuel
  induction fuel with
  | zero => intro c la; rfl
  | succ n ih =>
      intro c la
      obtain ⟨s2, hs2⟩ := hnext c la
      have h2 : s2.offset = off + buffer.getD off 0 :=
        step_next_offset buffer ⟨off, c, la⟩ s2 hs2
      rw [hzero, Nat.add_zero] at h2
      simp only [parseLoop, hs2]
      obtain ⟨o2, c2, la2⟩ := s2
      have hoff2 : o2 = off := h2
      rw [hoff2]
      exact ih c2 la2

/-- Divergence propagates backwards along reachability. -/
theorem parseLoop_reaches_none (buffer : List Nat) (s0 s : PState)
    (hreach : Reaches buffer s0 s) (hnone : ∀ fuel, parseLoop buffer fuel s = none) :
    ∀ fuel, parseLoop buffer fuel s0 = none := by
  induction hreach using Relation.ReflTransGen.head_induction_on with
  | refl => exact hnone
  | head hab hbs ih =>
      intro fuel
      cases fuel with
      | zero => rfl
      | succ n =>
          have hab' : step buffer _ = .next _ := hab
          simp only [parseLoop, hab']
          exact ih n

/-- **C5** (amended): once the header validates, reaching a sub-descriptor
whose declared length `buffer[offset]` extends past the end of the buffer
makes the parse fail — with the malformed-descriptor `USBError` when the
descriptor's type byte at `offset + 1` is still inside the buffer, but with
an `IndexError` (not a `USBError`) when the descriptor starts at the final
byte, because `peek_desc_type` reads `buffer[offset + 1]` before the bounds
check.  (`none` covers insufficient fuel only.) -/
theorem parse_overrun_behavior (buffer : List Nat) (fuel : Nat) (s0 s : PState)
    (hstart : parseStart buffer = some s0) (hreach : Reaches buffer s0 s)
    (hofs : s.offset < buffer.length)
    (hoverrun : buffer.length < s.offset + buffer.getD s.offset 0) :
    (s.offset + 1 < buffer.length →
        parse_bytes buffer fuel = none ∨
          parse_bytes buffer fuel = some (.error (.usb
            ("Invalid USB configuration descriptor at pos " ++ toString s.offset)))) ∧
      (s.offset + 1 = buffer.length →
        parse_bytes buffer fuel = none ∨
          parse_bytes buffer fuel = some (.error .runtime)) := by
  rw [parse_bytes_eq_loop buffer fuel s0 hstart]
  constructor
  · intro hlt
    have hget : ∃ dt, buffer.get? (s.offset + 1) = some dt := by
      cases hg : buffer.get? (s.offset + 1) with
      | none =>
          have := List.get?_eq_none.mp hg
          omega
      | some dt => exact ⟨dt, rfl⟩
    obtain ⟨dt, hdt⟩ := hget
    have hctl : stepCtl buffer s.offset = .err (.usb
        ("Invalid USB configuration descriptor at pos " ++ toString s.offset)) := by
      unfold stepCtl
      rw [if_pos hofs]
      simp only [hdt]
      rw [if_pos hoverrun]
    have herr : step buffer s = .err (.usb
        ("Invalid USB configuration descriptor at pos " ++ toString s.offset)) := by
      unfold step
      rw [hctl]
    exact parseLoop_reaches_err buffer s0 s _ hreach herr fuel
  · intro heq
    have hdt : buffer.get? (s.offset + 1) = none := List.get?_eq_none.mpr (by omega)
    have hctl : stepCtl buffer s.offset = .err .runtime := by
      unfold stepCtl
      rw [if_pos hofs]
      simp only [hdt]
    have herr : step buffer s = .err .runtime := by
      unfold step
      rw [hctl]
    exact parseLoop_reaches_err buffer s0 s _ hreach herr fuel

/-- Counterexample to C5 as stated: `overrunTailDesc` passes header
validation, its sub-descriptor at offset 9 declares length 5 and overruns the
10-byte buffer, yet the parse raises `IndexError` (`PErr.runtime`), not the
malformed-descriptor `USBError` the claim requires. -/
theorem parse_overrun_usberror_counterexample :
    (parse_header overrunTailDesc).isOk = true ∧
      overrunTailDesc.getD 0 0 = 9 ∧
      overrunTailDesc.getD 9 0 = 5 ∧
      overrunTailDesc.length < 9 + 5 ∧
      parse_bytes overrunTailDesc 4 = some (.error .runtime) :=
  ⟨rfl, rfl, rfl, by decide, rfl⟩

/-- Witness for the amended C5 at `overrunTailDesc` (the final-byte case:
the parse surfaces `IndexError`). -/
theorem parse_overrun_behavior_witness :
    ((⟨9, ⟨0, 0, 0, [], []⟩, none⟩ : PState).offset + 1 < overrunTailDesc.length →
        parse_bytes overrunTailDesc 4 = none ∨
          parse_bytes overrunTailDesc 4 = some (.error (.usb
            ("Invalid USB configuration descriptor at pos " ++
              toString (⟨9, ⟨0, 0, 0, [], []⟩, none⟩ : PState).offset)))) ∧
      ((⟨9, ⟨0, 0, 0, [], []⟩, none⟩ : PState).offset + 1 = overrunTailDesc.length →
        parse_bytes overrunTailDesc 4 = none ∨
          parse_bytes overrunTailDesc 4 = some (.error .runtime)) :=
  parse_overrun_behavior overrunTailDesc 4 ⟨9, ⟨0, 0, 0, [], []⟩, none⟩
    ⟨9, ⟨0, 0, 0, [], []⟩, none⟩ rfl .refl (by decide) (by decide)

/-- **C6** (amended): if the parse loop reaches a sub-descriptor with
declared length 0 and that iteration itself raises no error (`step` produces
a successor state), the offset never advances and the call neither returns
nor raises — `parse_bytes` yields `none` for every fuel.  The original
claim, which requires only that a zero-length descriptor at an offset before
the end of the buffer is reached, is refuted by
`parse_zero_length_raises_counterexample`: at the final byte the type peek
raises `IndexError` instead of looping. -/
theorem parse_zero_length_divergence (buffer : List Nat) (fuel : Nat) (s0 s s' : PState)
    (hstart : parseStart buffer = some s0) (hreach : Reaches buffer s0 s)
    (_hofs : s.offset < buffer.length)
    (hzero : buffer.getD s.offset 0 = 0)
    (hnoerr : step buffer s = .next s') :
    parse_bytes buffer fuel = none := by
  rw [parse_bytes_eq_loop buffer fuel s0 hstart]
  apply parseLoop_reaches_none buffer s0 s hreach
  intro f
  exact parseLoop_stuck buffer s.offset hzero (step_next_any buffer s s' hnoerr) f
    s.config s.lastAlt

/-- Witness for the amended C6: `zeroLenLoopDesc` has a zero-length skipped
descriptor at offset 9 (before the end of the 11-byte buffer) and the parse
diverges: it returns `none` even with ample fuel. -/
theorem parse_zero_length_divergence_witness :
    parse_bytes zeroLenLoopDesc 1000 = none :=
  parse_zero_length_divergence zeroLenLoopDesc 1000
    ⟨9, ⟨0, 0, 0, [], []⟩, none⟩ ⟨9, ⟨0, 0, 0, [], []⟩, none⟩
    ⟨9, ⟨0, 0, 0, [], []⟩, none⟩ rfl .refl (by decide) rfl rfl

/-- Counterexample to C6 as stated: `zeroLenTailDesc` passes header
validation and the loop reaches offset 9 (strictly before the end of the
10-byte buffer) holding a zero-length descriptor — yet the call raises
`IndexError` rather than hanging, because the descriptor sits on the final
byte and the type peek at offset 10 is out of range. -/
theorem parse_zero_length_raises_counterexample :
    (parse_header zeroLenTailDesc).isOk = true ∧
      zeroLenTailDesc.getD 0 0 = 9 ∧
      zeroLenTailDesc.getD 9 0 = 0 ∧
      9 < zeroLenTailDesc.length ∧
      parse_bytes zeroLenTailDesc 2 = some (.error .runtime) :=
  ⟨rfl, rfl, rfl, by decide, rfl⟩

/-! ### Device-layer lemmas (close / claims / transfer checks) -/

/-- `setClaimedList` preserves the interface numbers. -/
theorem setClaimedList_map_number (n : Nat) (b : Bool) :
    ∀ l : List Interface, (setClaimedList l n b).map Interface.number = l.map Interface.number := by
  intro l
  induction l with
  | nil => rfl
  | cons i rest ih =>
      by_cases h : (i.number == n) = true
      · simp [setClaimedList, h]
      · simp only [Bool.not_eq_true] at h
        simp [setClaimedList, h, ih]

/-- `setClaimedList` skips interfaces with other numbers. -/
theorem setClaimedList_skip (i : Interface) (rest : List Interface) (n : Nat) (b : Bool)
    (h : (i.number == n) = false) :
    setClaimedList (i :: rest) n b = i :: setClaimedList rest n b := by
  simp [setClaimedList, h]

/-- Folding releases over numbers a head interface does not carry leaves the
head untouched. -/
theorem foldl_setClaimedList_skip (i : Interface) :
    ∀ (ns : List Nat) (rest : List Interface), (∀ n ∈ ns, (i.number == n) = false) →
      ns.foldl (fun li n => setClaimedList li n false) (i :: rest)
        = i :: ns.foldl (fun li n => setClaimedList li n false) rest := by
  intro ns
  induction ns with
  | nil => intro rest _; rfl
  | cons n ns ih =>
      intro rest h
      rw [List.foldl_cons, List.foldl_cons,
        setClaimedList_skip i rest n false (h n (List.mem_cons_self n ns))]
      exact ih (setClaimedList rest n false) (fun m hm => h m (List.mem_cons_of_mem n hm))

/-- Releasing every interface number (as `LinuxDevice.close` does) sets
`is_claimed = false` on every interface, when interface numbers are unique. -/
theorem releaseList_eq :
    ∀ l : List Interface, (l.map Interface.number).Nodup →
      releaseIntfList l = l.map (fun i => { i with isClaimed := false }) := by
  intro l
  induction l with
  | nil => intro _; rfl
  | cons i rest ih =>
      intro hnd
      unfold releaseIntfList
      rw [List.map_cons, List.foldl_cons]
      have hhead : setClaimedList (i :: rest) i.number false
          = { i with isClaimed := false } :: rest := by
        simp [setClaimedList]
      rw [hhead]
      have hni : i.number ∉ rest.map Interface.number := (List.nodup_cons.mp hnd).1
      have hskip : ∀ n ∈ rest.map Interface.number,
          ((({ i with isClaimed := false } : Interface)).number == n) = false := by
        intro n hn
        apply beq_eq_false_iff_ne.mpr
        intro heq
        exact hni (heq ▸ hn)
      rw [foldl_setClaimedList_skip _ _ _ hskip]
      have := ih (List.nodup_cons.mp hnd).2
      unfold releaseIntfList at this
      rw [this, List.map_cons]

/-- The device-level release fold only rewrites the interface list. -/
theorem fold_set_claimed_eq :
    ∀ (ns : List Nat) (d : DeviceState),
      ns.foldl (fun acc n => acc.set_claimed n false) d
        = { d with configuration := { d.configuration with
            interfaces := ns.foldl (fun li n => setClaimedList li n false)
              d.configuration.interfaces } } := by
  intro ns
  induction ns with
  | nil => intro d; rfl
  | cons n ns ih =>
      intro d
      rw [List.foldl_cons, List.foldl_cons]
      exact ih (d.set_claimed n false)

/-- `close` on a closed device is the identity. -/
theorem close_of_closed (d : DeviceState) (h : d.isOpen = false) : d.close = d := by
  unfold DeviceState.close
  rw [h]
  rfl

/-- The shape of `close` on an open device. -/
theorem close_of_open (d : DeviceState) (h : d.isOpen = true) :
    d.close = { d with
      isOpen := false
      deviceFd := 0
      configuration := { d.configuration with
                         interfaces := releaseIntfList d.configuration.interfaces } } := by
  unfold DeviceState.close
  rw [h]
  simp only [Bool.not_true, Bool.false_eq_true, if_false]
  exact fold_set_claimed_eq _ _

/-- `close` always leaves the device closed. -/
theorem close_isOpen (d : DeviceState) : d.close.isOpen = false := by
  by_cases h : d.isOpen = true
  · rw [close_of_open d h]
  · rw [close_of_closed d (by revert h; cases d.isOpen <;> simp)]
    revert h
    cases d.isOpen <;> simp

/-- Folding releases preserves the interface numbers, whatever the list of
numbers processed. -/
theorem foldl_setClaimedList_map_number :
    ∀ (ns : List Nat) (l : List Interface),
      ((ns.foldl (fun li n => setClaimedList li n false) l).map Interface.number)
        = l.map Interface.number := by
  intro ns
  induction ns with
  | nil => intro l; rfl
  | cons n ns ih =>
      intro l
      rw [List.foldl_cons, ih (setClaimedList l n false), setClaimedList_map_number]

/-- `close` preserves identity fields, connectivity, and interface numbers. -/
theorem close_fields (d : DeviceState) :
    d.close.identifier = d.identifier ∧ d.close.vid = d.vid ∧ d.close.pid = d.pid ∧
      d.close.isConnected = d.isConnected ∧
      d.close.configuration.interfaces.map Interface.number
        = d.configuration.interfaces.map Interface.number := by
  by_cases h : d.isOpen = true
  · rw [close_of_open d h]
    exact ⟨rfl, rfl, rfl, rfl, foldl_setClaimedList_map_number _ _⟩
  · rw [close_of_closed d (by revert h; cases d.isOpen <;> simp)]
    exact ⟨rfl, rfl, rfl, rfl, rfl⟩

/-- After `close`, every interface is released (interface numbers unique;
an already-closed device is assumed to hold no claims, which is the device
invariant — claims are only set while open and `close` clears them). -/
theorem close_unclaimed (d : DeviceState)
    (hnodup : (d.configuration.interfaces.map Interface.number).Nodup)
    (hclosed : d.isOpen = false → ∀ i ∈ d.configuration.interfaces, i.isClaimed = false) :
    ∀ i ∈ d.close.configuration.interfaces, i.isClaimed = false := by
  by_cases h : d.isOpen = true
  · rw [close_of_open d h]
    intro i hi
    have hi' : i ∈ releaseIntfList d.configuration.interfaces := hi
    rw [releaseList_eq d.configuration.interfaces hnodup] at hi'
    obtain ⟨j, _, rfl⟩ := List.mem_map.mp hi'
    rfl
  · have hfalse : d.isOpen = false := by revert h; cases d.isOpen <;> simp
    rw [close_of_closed d hfalse]
    exact hclosed hfalse

/-- **C8**: `close` is idempotent — on an already-closed device it changes
nothing (and raises nothing: it is total), `close ∘ close = close` — and
after `close` the device is not open and every interface is unclaimed.  The
two hypotheses are the device invariants guaranteed by construction: parsed
configurations have unique interface numbers, and a closed device holds no
claims. -/
theorem close_idempotent_releases (d : DeviceState)
    (hnodup : (d.configuration.interfaces.map Interface.number).Nodup)
    (hclosed : d.isOpen = false → ∀ i ∈ d.configuration.interfaces, i.isClaimed = false) :
    (d.isOpen = false → d.close = d) ∧
      d.close.close = d.close ∧
      d.close.isOpen = false ∧
      (∀ i ∈ d.close.configuration.interfaces, i.isClaimed = false) :=
  ⟨close_of_closed d,
   close_of_closed d.close (close_isOpen d),
   close_isOpen d,
   close_unclaimed d hnodup hclosed⟩

/-- Witness for C8 on the concrete open `demoDevice`. -/
theorem close_idempotent_releases_witness :
    (demoDevice.isOpen = false → demoDevice.close = demoDevice) ∧
      demoDevice.close.close = demoDevice.close ∧
      demoDevice.close.isOpen = false ∧
      (∀ i ∈ demoDevice.close.configuration.interfaces, i.isClaimed = false) :=
  close_idempotent_releases demoDevice (by decide)
    (fun h => absurd h (by decide))

/-- The interface found by `get_endpoint_and_interface` belongs to the
configuration's interface list. -/
theorem findEndpointIntf_mem :
    ∀ (l : List Interface) (num : Nat) (dir : TransferDirection) (e : Endpoint) (i : Interface),
      findEndpointIntf l num dir = some (e, i) → i ∈ l := by
  intro l
  induction l with
  | nil => intro num dir e i h; exact absurd h (by simp [findEndpointIntf])
  | cons j rest ih =>
      intro num dir e i h
      unfold findEndpointIntf at h
      cases hf : j.current_alternate.endpoints.find?
          (fun e => e.number == num && e.direction == dir) with
      | some e0 =>
          rw [hf] at h
          injection h with h1
          injection h1 with _ h3
          exact h3 ▸ List.mem_cons_self j rest
      | none =>
          rw [hf] at h
          exact List.mem_cons_of_mem j (ih num dir e i h)

/-- Any of the four C7 failure conditions makes
`get_and_check_endpoint_and_interface` raise a `USBError`. -/
theorem gacei_error (d : DeviceState) (ep : Nat) (dir : TransferDirection)
    (hbad : BadTransferEndpoint d ep dir) :
    ∃ msg, d.get_and_check_endpoint_and_interface ep dir = .error msg := by
  unfold DeviceState.get_and_check_endpoint_and_interface
  by_cases h0 : (ep == 0) = true
  · rw [if_pos h0]
    exact ⟨_, rfl⟩
  · rw [if_neg h0]
    rcases hbad with h | h | h | h
    · exact absurd (by simp [h]) h0
    · rw [h]
      exact ⟨_, rfl⟩
    · obtain ⟨e, i, hsome, ht1, ht2⟩ := h
      simp only [hsome]
      have htb : (e.transferType == .BULK || e.transferType == .INTERRUPT) = false := by
        cases he : e.transferType <;> simp_all
      simp only [htb, Bool.not_false, if_true]
      exact ⟨_, rfl⟩
    · obtain ⟨e, i, hsome, hcl⟩ := h
      simp only [hsome]
      by_cases ht : (e.transferType == .BULK || e.transferType == .INTERRUPT) = true
      · simp only [ht, Bool.not_true, Bool.false_eq_true, if_false, hcl, Bool.not_false, if_true]
        exact ⟨_, rfl⟩
      · have ht' : (e.transferType == .BULK || e.transferType == .INTERRUPT) = false := by
          revert ht
          cases e.transferType == .BULK || e.transferType == .INTERRUPT <;> simp
        simp only [ht', Bool.not_false, if_true]
        exact ⟨_, rfl⟩

/-- The endpoint checks propagate through `transfer_in`. -/
theorem transfer_in_error (d : DeviceState) (ep : Nat) (msg : String)
    (h : d.get_and_check_endpoint_and_interface ep .IN = .error msg) :
    d.transfer_in ep = .error msg := by
  unfold DeviceState.transfer_in
  rw [h]
  rfl

/-- The endpoint checks propagate through `transfer_out`. -/
theorem transfer_out_error (d : DeviceState) (ep : Nat) (data : List Nat) (msg : String)
    (h : d.get_and_check_endpoint_and_interface ep .OUT = .error msg) :
    d.transfer_out ep data = .error msg := by
  unfold DeviceState.transfer_out
  rw [h]
  rfl

/-- The endpoint checks propagate through `clear_halt`. -/
theorem clear_halt_error (d : DeviceState) (ep : Nat) (dir : TransferDirection) (msg : String)
    (h : d.get_and_check_endpoint_and_interface ep dir = .error msg) :
    d.clear_halt ep dir = .error msg := by
  unfold DeviceState.clear_halt
  rw [h]
  rfl

/-- The endpoint checks propagate through `abort_transfers`. -/
theorem abort_transfers_error (d : DeviceState) (ep : Nat) (dir : TransferDirection)
    (msg : String) (h : d.get_and_check_endpoint_and_interface ep dir = .error msg) :
    d.abort_transfers ep dir = .error msg := by
  unfold DeviceState.abort_transfers
  rw [h]
  rfl

/-- **C7**: on an open device, `transfer_in(ep)` and `transfer_out(ep, data)`
raise a `USBError` — and hand nothing to the async dispatcher — whenever
`ep = 0`, or no endpoint with that number and direction exists in any
interface's current alternate setting, or the endpoint's transfer type is
neither BULK nor INTERRUPT, or the interface the endpoint belongs to is not
claimed. -/
theorem transfer_checks (d : DeviceState) (ep : Nat) (data : List Nat)
    (_hopen : d.isOpen = true) :
    (BadTransferEndpoint d ep .IN → ∃ msg, d.transfer_in ep = .error msg) ∧
      (BadTransferEndpoint d ep .OUT → ∃ msg, d.transfer_out ep data = .error msg) := by
  constructor
  · intro hbad
    obtain ⟨msg, hmsg⟩ := gacei_error d ep .IN hbad
    exact ⟨msg, transfer_in_error d ep msg hmsg⟩
  · intro hbad
    obtain ⟨msg, hmsg⟩ := gacei_error d ep .OUT hbad
    exact ⟨msg, transfer_out_error d ep data msg hmsg⟩

/-- Witness for C7: on the open `demoDevice`, endpoint 0 is rejected in both
directions. -/
theorem transfer_checks_witness :
    (∃ msg, demoDevice.transfer_in 0 = .error msg) ∧
      (∃ msg, demoDevice.transfer_out 0 [1, 2] = .error msg) :=
  ⟨(transfer_checks demoDevice 0 [1, 2] rfl).1 (Or.inl rfl),
   (transfer_checks demoDevice 0 [1, 2] rfl).2 (Or.inl rfl)⟩

/-! ### Disconnect behaviour (claim C2) -/

/-- `disconnect` leaves the device closed. -/
theorem disconnect_isOpen (d : DeviceState) : d.disconnect.isOpen = false :=
  close_isOpen d

/-- A closed device's `check_is_open` fails with the open-first message. -/
theorem check_is_open_error (d : DeviceState) (h : d.isOpen = false) :
    d.check_is_open = .error "Device must be opened first" := by
  unfold DeviceState.check_is_open
  rw [h]
  rfl

/-- After disconnect no interface is claimed. -/
theorem disconnect_unclaimed (d : DeviceState)
    (hnodup : (d.configuration.interfaces.map Interface.number).Nodup)
    (hclosed : d.isOpen = false → ∀ i ∈ d.configuration.interfaces, i.isClaimed = false) :
    ∀ i ∈ d.disconnect.configuration.interfaces, i.isClaimed = false :=
  close_unclaimed d hnodup hclosed

/-- After disconnect every data-transfer endpoint check fails: either the
endpoint does not exist, or its interface is necessarily unclaimed. -/
theorem disconnect_bad_endpoint (d : DeviceState) (ep : Nat) (dir : TransferDirection)
    (hnodup : (d.configuration.interfaces.map Interface.number).Nodup)
    (hclosed : d.isOpen = false → ∀ i ∈ d.configuration.interfaces, i.isClaimed = false) :
    BadTransferEndpoint d.disconnect ep dir := by
  by_cases h0 : ep = 0
  · exact Or.inl h0
  · cases hep : d.disconnect.get_endpoint_and_interface ep dir with
    | none => exact Or.inr (Or.inl hep)
    | some pair =>
        obtain ⟨e, i⟩ := pair
        have hmem : i ∈ d.disconnect.configuration.interfaces :=
          findEndpointIntf_mem d.disconnect.configuration.interfaces ep dir e i hep
        exact Or.inr (Or.inr (Or.inr ⟨e, i, hep,
          disconnect_unclaimed d hnodup hclosed i hmem⟩))

/-- **C2** (amended): after the registry's disconnect treatment
(`device.close()` then `is_connected = False`), every communication
operation raises a `USBError` and descriptive properties remain readable —
but only `open` reports `"Device is no longer connected"`
(`check_is_closed_and_connected`); `claim_interface`, `release_interface`,
`select_alternate` and the control transfers report
`"Device must be opened first"` (`check_is_open` runs first and the device is
closed after disconnect), and the data transfers / halt / abort report an
endpoint-or-claim error.  The original claim — the same
`"Device is no longer connected"` message for *every* operation — is refuted
by `disconnect_message_counterexample`. -/
theorem disconnect_behavior (d : DeviceState) (fd : Int) (n a ep len : Nat)
    (t : ControlTransfer) (data : List Nat) (dir : TransferDirection)
    (hnodup : (d.configuration.interfaces.map Interface.number).Nodup)
    (hclosed : d.isOpen = false → ∀ i ∈ d.configuration.interfaces, i.isClaimed = false) :
    d.disconnect.openDevice fd = .error "Device is no longer connected" ∧
      d.disconnect.claim_interface n = .error "Device must be opened first" ∧
      d.disconnect.release_interface n = .error "Device must be opened first" ∧
      d.disconnect.select_alternate n a = .error "Device must be opened first" ∧
      d.disconnect.control_transfer_in t len = .error "Device must be opened first" ∧
      d.disconnect.control_transfer_out t data = .error "Device must be opened first" ∧
      (∃ msg, d.disconnect.transfer_in ep = .error msg) ∧
      (∃ msg, d.disconnect.transfer_out ep data = .error msg) ∧
      (∃ msg, d.disconnect.clear_halt ep dir = .error msg) ∧
      (∃ msg, d.disconnect.abort_transfers ep dir = .error msg) ∧
      d.disconnect.identifier = d.identifier ∧
      d.disconnect.vid = d.vid ∧ d.disconnect.pid = d.pid := by
  have hopen : d.disconnect.isOpen = false := disconnect_isOpen d
  have hconn : d.disconnect.isConnected = false := rfl
  have hcio : d.disconnect.check_is_open = .error "Device must be opened first" :=
    check_is_open_error d.disconnect hopen
  have hbad : ∀ dir2, BadTransferEndpoint d.disconnect ep dir2 :=
    fun dir2 => disconnect_bad_endpoint d ep dir2 hnodup hclosed
  refine ⟨?_, ?_, ?_, ?_, ?_, ?_, ?_, ?_, ?_, ?_, ?_, ?_, ?_⟩
  · unfold DeviceState.openDevice DeviceState.check_is_closed_and_connected
    rw [hopen, hconn]
    rfl
  · unfold DeviceState.claim_interface
    rw [hcio]
    rfl
  · unfold DeviceState.release_interface
    rw [hcio]
    rfl
  · unfold DeviceState.select_alternate DeviceState.check_alternate_interface
    rw [hcio]
    rfl
  · unfold DeviceState.control_transfer_in DeviceState.check_control_transfer
    rw [hcio]
    rfl
  · unfold DeviceState.control_transfer_out DeviceState.check_control_transfer
    rw [hcio]
    rfl
  · obtain ⟨msg, hmsg⟩ := gacei_error d.disconnect ep .IN (hbad .IN)
    exact ⟨msg, transfer_in_error d.disconnect ep msg hmsg⟩
  · obtain ⟨msg, hmsg⟩ := gacei_error d.disconnect ep .OUT (hbad .OUT)
    exact ⟨msg, transfer_out_error d.disconnect ep data msg hmsg⟩
  · obtain ⟨msg, hmsg⟩ := gacei_error d.disconnect ep dir (hbad dir)
    exact ⟨msg, clear_halt_error d.disconnect ep dir msg hmsg⟩
  · obtain ⟨msg, hmsg⟩ := gacei_error d.disconnect ep dir (hbad dir)
    exact ⟨msg, abort_transfers_error d.disconnect ep dir msg hmsg⟩
  · exact (close_fields d).1
  · exact (close_fields d).2.1
  · exact (close_fields d).2.2.1

/-- Counterexample to C2 as stated: on the disconnected `demoDevice`,
`claim_interface` raises `"Device must be opened first"`, not
`"Device is no longer connected"`. -/
theorem disconnect_message_counterexample :
    demoDevice.disconnect.claim_interface 0 = .error "Device must be opened first" ∧
      "Device must be opened first" ≠ "Device is no longer connected" :=
  ⟨rfl, by decide⟩

/-- Witness for the amended C2 on the disconnected `demoDevice`. -/
theorem disconnect_behavior_witness :
    demoDevice.disconnect.openDevice 9 = .error "Device is no longer connected" ∧
      demoDevice.disconnect.claim_interface 0 = .error "Device must be opened first" ∧
      demoDevice.disconnect.release_interface 0 = .error "Device must be opened first" ∧
      demoDevice.disconnect.select_alternate 0 0 = .error "Device must be opened first" ∧
      demoDevice.disconnect.control_transfer_in ⟨.VENDOR, .DEVICE, 1, 2, 3⟩ 8
        = .error "Device must be opened first" ∧
      demoDevice.disconnect.control_transfer_out ⟨.VENDOR, .DEVICE, 1, 2, 3⟩ [5]
        = .error "Device must be opened first" ∧
      (∃ msg, demoDevice.disconnect.transfer_in 2 = .error msg) ∧
      (∃ msg, demoDevice.disconnect.transfer_out 2 [5] = .error msg) ∧
      (∃ msg, demoDevice.disconnect.clear_halt 2 .IN = .error msg) ∧
      (∃ msg, demoDevice.disconnect.abort_transfers 2 .IN = .error msg) ∧
      demoDevice.disconnect.identifier = demoDevice.identifier ∧
      demoDevice.disconnect.vid = demoDevice.vid ∧
      demoDevice.disconnect.pid = demoDevice.pid :=
  disconnect_behavior demoDevice 9 0 0 2 8 ⟨.VENDOR, .DEVICE, 1, 2, 3⟩ [5] .IN
    (by decide) (fun h => absurd h (by decide))

/-! ### Transfer wait (claim C3) -/

/-- **C3**: for a Linux transfer wait with a finite timeout whose completion
event is not set when the timeout expires, the driver aborts the endpoint's
transfers, performs the unbounded second wait, and raises
`TransferTimeoutError`; for a completed transfer, result code 0 returns the
payload, `EPIPE` raises `StallError`, and any other non-zero code raises
`USBError` carrying the `strerror` text.  The hypothesis `hseq` is the
sequential-consistency fact that `result_code` is still 0 while the event is
unset (`reap_urb` writes the code before setting the event). -/
theorem wait_for_transfer_behavior (strerrorF : Nat → String) (tg ct : Bool)
    (codeAtCheck finalCode : Nat)
    (hseq : ct = false → codeAtCheck = 0) :
    (tg = true → ct = false →
        wait_for_transfer strerrorF tg ct codeAtCheck finalCode = (.timedOut, true)) ∧
      ((tg = false ∨ ct = true) → finalCode = 0 →
        wait_for_transfer strerrorF tg ct codeAtCheck finalCode = (.success, false)) ∧
      ((tg = false ∨ ct = true) → finalCode = EPIPE →
        wait_for_transfer strerrorF tg ct codeAtCheck finalCode = (.stalled, false)) ∧
      ((tg = false ∨ ct = true) → finalCode ≠ 0 → finalCode ≠ EPIPE →
        wait_for_transfer strerrorF tg ct codeAtCheck finalCode
          = (.failed ("transfer failed - " ++ strerrorF finalCode), false)) := by
  refine ⟨?_, ?_, ?_, ?_⟩
  · intro htg hct
    subst htg
    subst hct
    unfold wait_for_transfer
    rw [hseq rfl]
    simp
  · intro hdone h0
    subst h0
    unfold wait_for_transfer
    rcases hdone with h | h <;> subst h <;> simp
  · intro hdone hp
    subst hp
    unfold wait_for_transfer
    rcases hdone with h | h <;> subst h <;> simp [EPIPE]
  · intro hdone h0 hp
    unfold wait_for_transfer
    rcases hdone with h | h <;> subst h <;> simp [h0, hp]

/-- Witness for C3: a timed-out wait aborts and raises
`TransferTimeoutError`; a completed wait with code `EPIPE = 32` stalls. -/
theorem wait_for_transfer_behavior_witness :
    wait_for_transfer demoStrerror true false 0 0 = (.timedOut, true) ∧
      wait_for_transfer demoStrerror true true 0 32 = (.stalled, false) :=
  ⟨(wait_for_transfer_behavior demoStrerror true false 0 0 (fun _ => rfl)).1 rfl rfl,
   (wait_for_transfer_behavior demoStrerror true true 0 32
      (fun h => absurd h (by decide))).2.2.1 (Or.inr rfl) rfl⟩

/-! ### Registry snapshots (claim C9) -/

/-- Looking up in an extended heap finds the old cell first. -/
theorem lookupCell_append (l1 l2 : List (Nat × List String)) (k : Nat) :
    lookupCell (l1 ++ l2) k =
      match lookupCell l1 k with
      | some v => some v
      | none => lookupCell l2 k := by
  induction l1 with
  | nil => rfl
  | cons kv rest ih =>
      obtain ⟨k0, v0⟩ := kv
      by_cases h : (k0 == k) = true
      · simp [lookupCell, h]
      · simp only [Bool.not_eq_true] at h
        simp [lookupCell, h, ih]

/-- Updating a cell changes exactly that cell's contents. -/
theorem lookupCell_update (l : List (Nat × List String)) (k : Nat) (nv : List String) :
    lookupCell (updateCell l k nv) k =
      match lookupCell l k with
      | some _ => some nv
      | none => none := by
  induction l with
  | nil => rfl
  | cons kv rest ih =>
      obtain ⟨k0, v0⟩ := kv
      by_cases h : (k0 == k) = true
      · simp [lookupCell, updateCell, h]
      · simp only [Bool.not_eq_true] at h
        simp [lookupCell, updateCell, h, ih]

/-- Removing an absent identifier leaves the list unchanged. -/
theorem removeFirst_not_contains (ident : String) :
    ∀ l : List String, l.contains ident = false → removeFirst l ident = l := by
  intro l
  induction l with
  | nil => intro _; rfl
  | cons x rest ih =>
      intro h
      rw [List.contains_cons, Bool.or_eq_false_iff] at h
      have hne : ident ≠ x := beq_eq_false_iff_ne.mp h.1
      have hxi : (x == ident) = false := beq_eq_false_iff_ne.mpr (fun he => hne he.symm)
      unfold removeFirst
      rw [hxi]
      simp [ih h.2]

/-- **C9** (amended): a list handed out by `get_devices()` is a snapshot
with respect to `add_device` — which rebinds `device_list` to a freshly
allocated sorted list — but **not** with respect to
`close_and_remove_device`, which calls `list.remove` on the current list
object: the caller's list loses the removed device in place.  The original
snapshot claim is refuted by `get_devices_snapshot_counterexample`. -/
theorem get_devices_snapshot_behavior (r : Registry) (dev ident : String)
    (hfresh : r.current ≠ r.nextId) :
    (r.add_device dev).readList r.get_devices = r.readList r.get_devices ∧
      (r.close_and_remove_device ident).readList r.get_devices
        = removeFirst (r.readList r.get_devices) ident := by
  constructor
  · show ((lookupCell (r.cells ++ [(r.nextId, _)]) r.current).getD [])
      = (lookupCell r.cells r.current).getD []
    rw [lookupCell_append]
    cases hlk : lookupCell r.cells r.current with
    | some v => rfl
    | none =>
        have hne : (r.nextId == r.current) = false :=
          beq_eq_false_iff_ne.mpr (Ne.symm hfresh)
        simp [lookupCell, hne]
  · unfold Registry.close_and_remove_device
    by_cases hc : ((r.readList r.current).contains ident) = true
    · rw [if_pos hc]
      show (lookupCell (updateCell r.cells r.current
            (removeFirst ((lookupCell r.cells r.current).getD []) ident)) r.current).getD []
          = removeFirst ((lookupCell r.cells r.current).getD []) ident
      rw [lookupCell_update]
      cases hlk : lookupCell r.cells r.current with
      | some l => rfl
      | none =>
          exfalso
          unfold Registry.readList at hc
          rw [hlk] at hc
          simp at hc
    · rw [if_neg hc]
      have hfalse : (r.readList r.get_devices).contains ident = false := by
        revert hc
        cases h : (r.readList r.current).contains ident <;> simp_all [Registry.get_devices]
      rw [removeFirst_not_contains ident _ hfalse]

/-- Counterexample to C9 as stated: removing device "a" via
`close_and_remove_device` mutates the list previously returned by
`get_devices` — the snapshot changes from `["a", "b"]` to `["b"]`. -/
theorem get_devices_snapshot_counterexample :
    regSample.readList regSample.get_devices = ["a", "b"] ∧
      (regSample.close_and_remove_device "a").readList regSample.get_devices = ["b"] ∧
      (["b"] : List String) ≠ ["a", "b"] :=
  ⟨rfl, rfl, by decide⟩

/-- Witness for the amended C9 at the concrete `regSample`. -/
theorem get_devices_snapshot_behavior_witness :
    (regSample.add_device "c").readList regSample.get_devices
        = regSample.readList regSample.get_devices ∧
      (regSample.close_and_remove_device "a").readList regSample.get_devices
        = removeFirst (regSample.readList regSample.get_devices) "a" :=
  get_devices_snapshot_behavior regSample "c" "a" (by decide)

end Usbx
